import Mathlib

/-!
# Verification of the EmulationController relay core

A shallow embedding of the host-side relay controller: the thread-safe
command queue (LinkedBlockingQueue.hpp), the receiver and sender loop
bodies and the CoAP request encoder (Controller.cpp), the command data
model (Controller.hpp), the timing result statistics (Experiments.hpp),
and the logging and assertion severity model (Debug.hpp).

The headers Message.hpp and CoAP.hpp are included by the sources but are
not part of the source tree; the message record layout, the type-tag
constants, and the CoAP constants are modelled from the specification
(sections 3, 4.1 and 4.2) and are marked as such in their doc comments.
-/

namespace EmulationController

/-! ## Wire message data model -/

/-- The magic sentinel every accepted wire message must carry.
Controller.cpp line 124 compares the received magic field against 0x4657. -/
def kMagic : Nat := 0x4657

/--
Modelled from the spec: Message.hpp is not under src/. Section 3 gives the
wire message as a fixed-size record with a 2-byte magic sentinel, an
enumerated type tag and a 4-byte opaque data payload. The tag is kept as a
raw natural number because the receiver reinterprets raw bytes, so the tag
field of a received record may lie outside the enumerated set.
-/
structure Message where
  magic : Nat
  type : Nat
  data : Nat
deriving DecidableEq, Repr

/--
Modelled from the spec: Message.hpp is not under src/. The dispatch switch
in Controller.cpp names seven inbound tags and Controller.hpp names two
outbound factories; the spec table in section 3 lists the same nine types.
Concrete numeric values are not recoverable from the sources, so the tags
are assigned distinct values in the order of the spec table; every theorem
below depends only on their distinctness, never on the particular values.
-/
def MessageType.kMoistureUserStack : Nat := 0

/-- Modelled from the spec: see MessageType.kMoistureUserStack. -/
def MessageType.kActuatorUserStack : Nat := 1

/-- Modelled from the spec: see MessageType.kMoistureUserStack. -/
def MessageType.kGateWayUserStack : Nat := 2

/-- Modelled from the spec: see MessageType.kMoistureUserStack. -/
def MessageType.kSoilDryAlert : Nat := 3

/-- Modelled from the spec: see MessageType.kMoistureUserStack. -/
def MessageType.kSoilWetAlert : Nat := 4

/-- Modelled from the spec: see MessageType.kMoistureUserStack. -/
def MessageType.kAckSoilWet : Nat := 5

/-- Modelled from the spec: see MessageType.kMoistureUserStack. -/
def MessageType.kRunOutOfWaterAlert : Nat := 6

/-- Modelled from the spec: see MessageType.kMoistureUserStack. -/
def MessageType.kChangeSoilMoisture : Nat := 7

/-- Modelled from the spec: see MessageType.kMoistureUserStack. -/
def MessageType.kChangeWaterStatus : Nat := 8

/-- The seven type tags handled by named cases of the receiver dispatch
switch in Controller.cpp lines 131-199; every other tag reaches the
default case. -/
def handledReceiverTags : List Nat :=
  [MessageType.kMoistureUserStack, MessageType.kActuatorUserStack,
   MessageType.kGateWayUserStack, MessageType.kSoilDryAlert,
   MessageType.kSoilWetAlert, MessageType.kAckSoilWet,
   MessageType.kRunOutOfWaterAlert]

/-- Modelled from the spec: Message.hpp is not under src/. Section 4.1,
factory for a soil dry alert event. -/
def Message.soilDryAlert : Message :=
  { magic := kMagic, type := MessageType.kSoilDryAlert, data := 0 }

/-- Modelled from the spec: Message.hpp is not under src/. Section 4.1,
factory for a soil wet alert event. -/
def Message.soilWetAlert : Message :=
  { magic := kMagic, type := MessageType.kSoilWetAlert, data := 0 }

/-- Modelled from the spec: Message.hpp is not under src/. Section 4.1,
factory for a moisture change; the payload carries the moisture level in
the fixed 4-byte width. -/
def Message.changeSoilMoisture (level : Nat) : Message :=
  { magic := kMagic, type := MessageType.kChangeSoilMoisture, data := level % 2 ^ 32 }

/-- Modelled from the spec: Message.hpp is not under src/. Section 4.1,
factory for a water status change; the boolean is widened to the fixed
4-byte width. -/
def Message.changeWaterStatus (hasWater : Bool) : Message :=
  { magic := kMagic, type := MessageType.kChangeWaterStatus,
    data := if hasWater then 1 else 0 }

/-! ## Sockets and commands (Controller.hpp) -/

/-- Socket indices, Controller.hpp lines 24-29. -/
inductive SocketIndex where
  | kMonitor
  | kActuator
  | kGateway
deriving DecidableEq, Repr

/-- The transport collaborator, abstracted to its observable outcomes: the
send and receiveWithLength calls of StreamSocket.hpp each report success
or failure as a boolean. -/
structure Socket where
  sendOK : Bool
  recvOK : Bool
deriving DecidableEq, Repr

/-- A command: a message paired with the destination socket index,
Controller.hpp lines 48-57. -/
structure Command where
  message : Message
  index : SocketIndex
deriving DecidableEq, Repr

/-- Controller.hpp lines 59-62. -/
def Command.changeSoilMoisture (level : Nat) : Command :=
  { message := Message.changeSoilMoisture level, index := SocketIndex.kMonitor }

/-- Controller.hpp lines 64-67. -/
def Command.changeWaterStatus (hasWater : Bool) : Command :=
  { message := Message.changeWaterStatus hasWater, index := SocketIndex.kActuator }

/-- Controller.hpp lines 69-72. -/
def Command.relayMessageToSensorDevice (message : Message) : Command :=
  { message := message, index := SocketIndex.kMonitor }

/-- Controller.hpp lines 74-77. -/
def Command.relayMessageToActuatorDevice (message : Message) : Command :=
  { message := message, index := SocketIndex.kActuator }

/-- Controller.hpp lines 79-82. -/
def Command.sendDrySoilAlertToActuatorDevice : Command :=
  { message := Message.soilDryAlert, index := SocketIndex.kActuator }

/-- Controller.hpp lines 84-87. -/
def Command.sendWetSoilAlertToActuatorDevice : Command :=
  { message := Message.soilWetAlert, index := SocketIndex.kActuator }

/-! ## The thread-safe command queue (LinkedBlockingQueue.hpp)

The mutex serialises all mutating operations, so the observable behaviour
is that of a sequence of atomic operations on the protected std::queue; the
embedding models that protected queue as a list, head first.
-/

structure LinkedBlockingQueue (α : Type) where
  queue : List α
deriving DecidableEq, Repr

/-- A freshly constructed queue: the protected std::queue starts empty. -/
def LinkedBlockingQueue.empty (α : Type) : LinkedBlockingQueue α := ⟨[]⟩

/-- offer, LinkedBlockingQueue.hpp lines 73-80: under the mutex, push the
element at the tail and notify all waiters. -/
def LinkedBlockingQueue.offer (q : LinkedBlockingQueue α) (element : α) :
    LinkedBlockingQueue α :=
  ⟨q.queue ++ [element]⟩

/-- A sequence of offer calls in program order. -/
def LinkedBlockingQueue.offerAll (q : LinkedBlockingQueue α) (elements : List α) :
    LinkedBlockingQueue α :=
  elements.foldl LinkedBlockingQueue.offer q

/-- poll, LinkedBlockingQueue.hpp lines 102-122: wait until the queue is
non-empty, then remove and return the front element. Blocking is modelled
by the non-emptiness hypothesis: poll returns only once an element is
present. -/
def LinkedBlockingQueue.poll (q : LinkedBlockingQueue α) (h : q.queue ≠ []) :
    α × LinkedBlockingQueue α :=
  (q.queue.head h, ⟨q.queue.tail⟩)

/-- pollWithTimeout, LinkedBlockingQueue.hpp lines 130-149, observed at the
moment wait_for returns: if the predicate holds (the queue became
non-empty before the deadline) the front element is removed and returned,
otherwise the call returns nullopt and touches nothing. The duration
argument affects only real time, never the value outcome, and is kept as
an unused parameter. The queue state passed in is the state at that
moment; a queue that stayed empty until the deadline is the [] case. -/
def LinkedBlockingQueue.pollWithTimeout (_timeout : Nat)
    (q : LinkedBlockingQueue α) : Option α × LinkedBlockingQueue α :=
  match q with
  | ⟨[]⟩ => (none, q)
  | ⟨x :: xs⟩ => (some x, ⟨xs⟩)

/-- Repeatedly poll until the queue is empty, collecting the returned
elements in order. -/
def LinkedBlockingQueue.drain (q : LinkedBlockingQueue α) : List α :=
  match h : q.queue with
  | [] => []
  | _ :: _ =>
    let p := q.poll (h ▸ List.cons_ne_nil _ _)
    p.1 :: p.2.drain
termination_by q.queue.length
decreasing_by
  simp only [LinkedBlockingQueue.poll, List.length_tail, h]
  simp

/-! ## The receiver loop body (Controller.cpp lines 100-202) -/

/-- The observable effects of one iteration of the receiver run loop. -/
structure ReceiverStepResult where
  /-- The loop proceeds to the next iteration (false means the thread
  leaves the loop and terminates). -/
  continues : Bool
  /-- The iteration aborts the whole process. -/
  abortsProcess : Bool
  /-- Commands offered to the shared queue, in order. -/
  enqueued : List Command
  /-- The iteration closes the connection. -/
  closesConnection : Bool
  /-- The iteration logs through the perr error macro (Debug.hpp lines
  77-84: a printf in debug builds, a no-op otherwise; it never aborts). -/
  logsError : Bool
  /-- The named dispatch case that handled the message, if any. -/
  dispatched : Option Nat
deriving DecidableEq, Repr

/-- One iteration of the receiver run loop, Controller.cpp lines 109-201.
The input is the outcome of receiveWithLength: none when the read fails,
some message when a full record arrived. A failed read logs an error and
breaks out of the loop; a magic mismatch logs an error and continues; the
seven named switch cases log status and enqueue relay commands for the
alert types; any other tag reaches the default case, which logs through
perr and leaves the switch, after which the loop continues. -/
def Controller.receiverStep (received : Option Message) : ReceiverStepResult :=
  match received with
  | none =>
    { continues := false, abortsProcess := false, enqueued := [],
      closesConnection := false, logsError := true, dispatched := none }
  | some message =>
    if message.magic ≠ kMagic then
      { continues := true, abortsProcess := false, enqueued := [],
        closesConnection := false, logsError := true, dispatched := none }
    else if message.type = MessageType.kMoistureUserStack then
      { continues := true, abortsProcess := false, enqueued := [],
        closesConnection := false, logsError := false,
        dispatched := some MessageType.kMoistureUserStack }
    else if message.type = MessageType.kActuatorUserStack then
      { continues := true, abortsProcess := false, enqueued := [],
        closesConnection := false, logsError := false,
        dispatched := some MessageType.kActuatorUserStack }
    else if message.type = MessageType.kGateWayUserStack then
      { continues := true, abortsProcess := false, enqueued := [],
        closesConnection := false, logsError := false,
        dispatched := some MessageType.kGateWayUserStack }
    else if message.type = MessageType.kSoilDryAlert then
      { continues := true, abortsProcess := false,
        enqueued := [Command.relayMessageToActuatorDevice message],
        closesConnection := false, logsError := false,
        dispatched := some MessageType.kSoilDryAlert }
    else if message.type = MessageType.kSoilWetAlert then
      { continues := true, abortsProcess := false,
        enqueued := [Command.relayMessageToActuatorDevice message],
        closesConnection := false, logsError := false,
        dispatched := some MessageType.kSoilWetAlert }
    else if message.type = MessageType.kAckSoilWet then
      { continues := true, abortsProcess := false,
        enqueued := [Command.relayMessageToSensorDevice message],
        closesConnection := false, logsError := false,
        dispatched := some MessageType.kAckSoilWet }
    else if message.type = MessageType.kRunOutOfWaterAlert then
      { continues := true, abortsProcess := false, enqueued := [],
        closesConnection := false, logsError := false,
        dispatched := some MessageType.kRunOutOfWaterAlert }
    else
      { continues := true, abortsProcess := false, enqueued := [],
        closesConnection := false, logsError := true, dispatched := none }

/-! ## The sender loop body (Controller.cpp lines 75-93) -/

/-- The observable effects of one iteration of the sender loop, after poll
returned a command. -/
structure SenderStepResult where
  /-- Socket writes performed, as destination and message pairs. -/
  socketWrites : List (SocketIndex × Message)
  /-- The iteration logs a warning (pwarning, or the log branch of
  psoftassert in Debug.hpp lines 100-107; neither aborts). -/
  loggedWarning : Bool
  /-- The loop proceeds to the next queued command. -/
  continues : Bool
  /-- The iteration aborts the whole process. -/
  abortsProcess : Bool
deriving DecidableEq, Repr

/-- One iteration of the sender loop, Controller.cpp lines 77-92: if the
destination slot holds a socket, send the message and soft-assert on the
result (a failed send only logs); if the slot is unbound, log a warning
and drop the command. The while loop always continues. -/
def Controller.senderStep (sockets : SocketIndex → Option Socket)
    (command : Command) : SenderStepResult :=
  match sockets command.index with
  | some socket =>
    { socketWrites := [(command.index, command.message)],
      loggedWarning := !socket.sendOK, continues := true,
      abortsProcess := false }
  | none =>
    { socketWrites := [], loggedWarning := true, continues := true,
      abortsProcess := false }

/-! ## The CoAP gateway round trip (Controller.cpp lines 246-351) -/

/-- Modelled from the spec: CoAP.hpp is not under src/. Section 4.2 says
the header carries a POST code; the POST method code of the CoAP request
encoding is 0.02. -/
def kPost : Nat := 2

/-- Modelled from the spec: CoAP.hpp is not under src/. Section 4.2 says
each option delta follows the CoAP option encoding rules, whose URI-Host
option number is 3. -/
def kURIHost : Nat := 3

/-- Modelled from the spec: CoAP.hpp is not under src/. The CoAP URI-Port
option number is 7. -/
def kURIPort : Nat := 7

/-- Modelled from the spec: CoAP.hpp is not under src/. The CoAP URI-Path
option number is 11. -/
def kURIPath : Nat := 11

/-- Modelled from the spec: CoAP.hpp is not under src/. The four header
bytes produced by the field assignments of Controller.cpp lines 251-261:
version 0x01, type 0x01, token length 0x00 packed least-significant-bits
first into byte 0, the POST code in byte 1, and the fixed message id
0x4657 stored in the native little-endian order of the host in bytes 2-3.
Every value is a constant; no header byte depends on the moisture value. -/
def coapHeaderBytes : List Nat := [0x05, kPost, 0x57, 0x46]

/-- The two bytes of a 16-bit value in network byte order, as produced by
htons in Controller.cpp line 279. -/
def u16ToBytesBE (v : Nat) : List Nat := [v / 2 ^ 8 % 2 ^ 8, v % 2 ^ 8]

/-- The four bytes of a 32-bit value in the native little-endian order of
the host, as produced by the direct store in Controller.cpp line 300. -/
def u32ToBytesLE (v : Nat) : List Nat :=
  [v % 2 ^ 8, v / 2 ^ 8 % 2 ^ 8, v / 2 ^ 16 % 2 ^ 8, v / 2 ^ 24 % 2 ^ 8]

/-- The byte values of the characters of a string literal, as copied by
memcpy in Controller.cpp lines 272 and 290. -/
def asciiBytes (s : String) : List Nat := s.toList.map Char.toNat

/-- makeCoAPRequestMessage, Controller.cpp lines 246-305: the 4-byte
header, then the URI-Host option (delta/length byte, then "localhost"),
the URI-Port option (delta/length byte, then port 10086 in network byte
order), the URI-Path option (delta/length byte, then "/moisture"), the
end-of-options marker 0xFF, and the 4-byte moisture payload in native
byte order. Each delta nibble is the option number difference from the
previously emitted option. -/
def Controller.makeCoAPRequestMessage (moisture : Nat) : List Nat :=
  coapHeaderBytes
    ++ ((kURIHost <<< 4) ||| (asciiBytes "localhost").length)
        :: asciiBytes "localhost"
    ++ (((kURIPort - kURIHost) <<< 4) ||| 2) :: u16ToBytesBE 10086
    ++ (((kURIPath - kURIPort) <<< 4) ||| (asciiBytes "/moisture").length)
        :: asciiBytes "/moisture"
    ++ [0xFF]
    ++ u32ToBytesLE moisture

/-- The possible outcomes of the synchronous CoAP round trip. -/
inductive CoAPOutcome where
  /-- The gateway optional holds no socket and the round trip dereferences
  it anyway (undefined behaviour of std::optional::operator arrow). -/
  | derefEmptyOptional
  /-- A passert fired: the failure branch prints and calls abort, ending
  the whole process (Debug.hpp lines 91-98 and 47-54). -/
  | abortProcess
  /-- Both the send and the receive succeeded. -/
  | success
deriving DecidableEq, Repr

/-- sendRecvCoAPMessage, Controller.cpp lines 314-319: the gateway slot is
dereferenced without any check, then the send and the receive are each
wrapped in passert, which aborts the process on failure. -/
def Controller.sendRecvCoAPMessage (gateway : Option Socket) : CoAPOutcome :=
  match gateway with
  | none => CoAPOutcome.derefEmptyOptional
  | some socket =>
    if !socket.sendOK then CoAPOutcome.abortProcess
    else if !socket.recvOK then CoAPOutcome.abortProcess
    else CoAPOutcome.success

/-! ## The interactive shell dispatch (Controller.cpp lines 432-515) -/

/-- The action the command loop takes for one parsed input line. -/
inductive ShellAction where
  /-- Empty line: continue the prompt loop. -/
  | skip
  /-- The exit command: leave the loop. -/
  | exitShell
  /-- Wrong argument count: print usage text. -/
  | usage
  /-- Offer a command to the shared queue. -/
  | offerCommand (command : Command)
  /-- The coap command: invoke sendRecvCoAPMessageOnce, which performs one
  gateway round trip via sendRecvCoAPMessage. -/
  | invokeCoAPOnce
  /-- The gateway command: run the timing experiment. -/
  | gatewayExperiment (trials delayMS : Nat)
  /-- Any other verb: print the unknown-command message. -/
  | unknownCommand
deriving DecidableEq, Repr

/-- std::stoi on the shell arguments, restricted to the numerals the shell
actually feeds it; a non-numeral is modelled as 0. -/
def stoi (s : String) : Nat := s.toNat?.getD 0

/-- One iteration of the command loop of Controller.run, Controller.cpp
lines 439-514, on the already tokenized input line. The dispatch consults
only the tokens: no branch inspects the socket slots, so the coap branch
invokes the round trip whether or not a gateway connection exists. -/
def Controller.runShellCommand (args : List String) : ShellAction :=
  let command := args.headD ""
  if command = "" then ShellAction.skip
  else if command = "exit" then ShellAction.exitShell
  else if command = "soil" then
    if args.length ≠ 2 then ShellAction.usage
    else ShellAction.offerCommand (Command.changeSoilMoisture (stoi (args.getD 1 "")))
  else if command = "water" then
    if args.length ≠ 2 then ShellAction.usage
    else ShellAction.offerCommand (Command.changeWaterStatus (stoi (args.getD 1 "") != 0))
  else if command = "dry" then
    ShellAction.offerCommand Command.sendDrySoilAlertToActuatorDevice
  else if command = "wet" then
    ShellAction.offerCommand Command.sendWetSoilAlertToActuatorDevice
  else if command = "coap" then ShellAction.invokeCoAPOnce
  else if command = "gateway" then
    if args.length ≠ 3 then ShellAction.usage
    else ShellAction.gatewayExperiment (stoi (args.getD 1 "")) (stoi (args.getD 2 ""))
  else ShellAction.unknownCommand

/-! ## Timing statistics (Experiments.hpp lines 21-79) -/

/-- The experiment result: the elapsed nanoseconds of each trial. -/
structure Result where
  durations : List Nat
deriving DecidableEq, Repr

/-- Result::min, Experiments.hpp lines 37-40: std::min_element over the
samples. Dereferencing the end iterator of an empty vector is undefined;
the empty case is modelled as 0 and never relied upon. -/
def Result.min (r : Result) : Nat :=
  match r.durations with
  | [] => 0
  | x :: xs => xs.foldl Nat.min x

/-- Result::max, Experiments.hpp lines 43-46: std::max_element over the
samples, with the same empty-vector caveat as Result.min. -/
def Result.max (r : Result) : Nat :=
  match r.durations with
  | [] => 0
  | x :: xs => xs.foldl Nat.max x

/-- Result::medium, Experiments.hpp lines 71-78: sort a copy of the
samples ascending and take the element at index size / 2. Indexing an
empty vector is undefined; the out-of-range case is modelled as 0 and
never relied upon. -/
def Result.medium (r : Result) : Nat :=
  (r.durations.insertionSort (· ≤ ·)).getD (r.durations.length / 2) 0

/-! ## Helper lemmas -/

/-- Draining a queue returns exactly the underlying list. -/
theorem drain_mk {α : Type} (l : List α) : LinkedBlockingQueue.drain ⟨l⟩ = l := by
  induction l with
  | nil => rw [LinkedBlockingQueue.drain]
  | cons x xs ih =>
    rw [LinkedBlockingQueue.drain]
    simpa [LinkedBlockingQueue.poll] using ih

/-- A sequence of offers appends the elements at the tail in order. -/
theorem offerAll_mk {α : Type} (l xs : List α) :
    LinkedBlockingQueue.offerAll ⟨l⟩ xs = ⟨l ++ xs⟩ := by
  induction xs generalizing l with
  | nil => simp [LinkedBlockingQueue.offerAll]
  | cons x xs ih =>
    simp only [LinkedBlockingQueue.offerAll, List.foldl_cons] at ih ⊢
    rw [show LinkedBlockingQueue.offer ⟨l⟩ x = ⟨l ++ [x]⟩ from rfl, ih]
    simp

/-- Folding Nat.min never exceeds the initial accumulator. -/
theorem foldl_min_le_init (xs : List Nat) (a : Nat) : xs.foldl Nat.min a ≤ a := by
  induction xs generalizing a with
  | nil => simp
  | cons x xs ih =>
    simp only [List.foldl_cons]
    exact le_trans (ih (Nat.min a x)) (Nat.min_le_left a x)

/-- Folding Nat.min never exceeds any list member. -/
theorem foldl_min_le_mem (xs : List Nat) (a y : Nat) (hy : y ∈ xs) :
    xs.foldl Nat.min a ≤ y := by
  induction xs generalizing a with
  | nil => cases hy
  | cons x xs ih =>
    simp only [List.foldl_cons]
    rcases List.mem_cons.mp hy with h | h
    · subst h
      exact le_trans (foldl_min_le_init xs (Nat.min a y)) (Nat.min_le_right a y)
    · exact ih _ h

/-- Folding Nat.max dominates the initial accumulator. -/
theorem init_le_foldl_max (xs : List Nat) (a : Nat) : a ≤ xs.foldl Nat.max a := by
  induction xs generalizing a with
  | nil => simp
  | cons x xs ih =>
    simp only [List.foldl_cons]
    exact le_trans (Nat.le_max_left a x) (ih (Nat.max a x))

/-- Folding Nat.max dominates any list member. -/
theorem mem_le_foldl_max (xs : List Nat) (a y : Nat) (hy : y ∈ xs) :
    y ≤ xs.foldl Nat.max a := by
  induction xs generalizing a with
  | nil => cases hy
  | cons x xs ih =>
    simp only [List.foldl_cons]
    rcases List.mem_cons.mp hy with h | h
    · subst h
      exact le_trans (Nat.le_max_right a y) (init_le_foldl_max xs (Nat.max a y))
    · exact ih _ h

/-- The reported minimum is a lower bound of every sample. -/
theorem Result.min_le_of_mem (r : Result) (y : Nat) (hy : y ∈ r.durations) :
    r.min ≤ y := by
  rcases r with ⟨l⟩
  cases l with
  | nil => cases hy
  | cons x xs =>
    simp only [Result.min]
    rcases List.mem_cons.mp hy with h | h
    · subst h; exact foldl_min_le_init xs y
    · exact foldl_min_le_mem xs x y h

/-- The reported maximum is an upper bound of every sample. -/
theorem Result.le_max_of_mem (r : Result) (y : Nat) (hy : y ∈ r.durations) :
    y ≤ r.max := by
  rcases r with ⟨l⟩
  cases l with
  | nil => cases hy
  | cons x xs =>
    simp only [Result.max]
    rcases List.mem_cons.mp hy with h | h
    · subst h; exact init_le_foldl_max xs y
    · exact mem_le_foldl_max xs x y h

/-- On a non-empty sample vector, the reported median is one of the
samples: the sorted copy is a permutation of the samples and the index
size / 2 is in range. -/
theorem Result.medium_mem (r : Result) (h : r.durations ≠ []) :
    r.medium ∈ r.durations := by
  have hperm := List.perm_insertionSort (fun a b : Nat => a ≤ b) r.durations
  have hlen : 0 < r.durations.length := List.length_pos.mpr h
  have hidx : r.durations.length / 2 < (r.durations.insertionSort (· ≤ ·)).length := by
    rw [hperm.length_eq]
    exact Nat.div_lt_self hlen (by omega)
  have hval : r.medium = (r.durations.insertionSort (· ≤ ·))[r.durations.length / 2] := by
    simp only [Result.medium]
    exact List.getD_eq_getElem _ _ hidx
  rw [hval]
  exact hperm.mem_iff.mp (List.getElem_mem hidx)

/-! ## Claim theorems -/

/--
Claim C1, counterexample: the claim says a received message with the
correct magic 0x4657 but a type tag outside the known closed set makes
the receiver dispatch abort the entire process. On the concrete message
with magic 0x4657 and tag 100, the default case of the dispatch switch
only invokes the perr logging macro, which never aborts, and the receive
loop continues with the next message: the process is not aborted.
-/
theorem receiver_unknown_type_abort_counterexample :
    (Controller.receiverStep (some { magic := 0x4657, type := 100, data := 0 })).abortsProcess
        = false ∧
    (Controller.receiverStep (some { magic := 0x4657, type := 100, data := 0 })).continues
        = true := by
  decide

/--
Claim C1, amended: for every received message whose magic equals 0x4657
but whose type tag is outside the known closed set, the receiver dispatch
logs an error through perr and continues the receive loop; it enqueues
nothing, closes nothing, and does not abort the process.
-/
theorem receiver_unknown_type_logs_and_continues (m : Message)
    (hmagic : m.magic = kMagic) (hunknown : m.type ∉ handledReceiverTags) :
    Controller.receiverStep (some m) =
      { continues := true, abortsProcess := false, enqueued := [],
        closesConnection := false, logsError := true, dispatched := none } := by
  simp only [handledReceiverTags, List.mem_cons, List.not_mem_nil, or_false, not_or] at hunknown
  obtain ⟨h0, h1, h2, h3, h4, h5, h6⟩ := hunknown
  simp [Controller.receiverStep, hmagic, h0, h1, h2, h3, h4, h5, h6]

/-- Witness for the amended claim C1 at the concrete unknown tag 100. -/
theorem receiver_unknown_type_logs_and_continues_witness :
    ({ magic := 0x4657, type := 100, data := 0 } : Message).magic = kMagic ∧
    ({ magic := 0x4657, type := 100, data := 0 } : Message).type ∉ handledReceiverTags ∧
    Controller.receiverStep (some { magic := 0x4657, type := 100, data := 0 }) =
      { continues := true, abortsProcess := false, enqueued := [],
        closesConnection := false, logsError := true, dispatched := none } :=
  ⟨by decide, by decide,
   receiver_unknown_type_logs_and_continues _ (by decide) (by decide)⟩

/--
Claim C2: for every moisture value, makeCoAPRequestMessage produces a
buffer of exactly 32 bytes laid out as the 4-byte header, the URI-Host
option carrying "localhost", the URI-Port option carrying port 10086 in
network byte order, the URI-Path option carrying "/moisture", the
end-of-options marker 0xFF, and the 4-byte payload; the last 4 bytes
equal the moisture value in native byte order and bytes 0-1 equal the
fixed header sentinel bytes.
-/
theorem makeCoAPRequestMessage_layout (V : Nat) :
    Controller.makeCoAPRequestMessage V =
      coapHeaderBytes
        ++ (0x39 :: asciiBytes "localhost")
        ++ (0x42 :: u16ToBytesBE 10086)
        ++ (0x49 :: asciiBytes "/moisture")
        ++ [0xFF]
        ++ u32ToBytesLE V ∧
    (Controller.makeCoAPRequestMessage V).length = 32 ∧
    (Controller.makeCoAPRequestMessage V).take 2 = [0x05, kPost] ∧
    (Controller.makeCoAPRequestMessage V).drop 28 = u32ToBytesLE V :=
  ⟨rfl, rfl, rfl, rfl⟩

/--
Claim C3: offering a sequence of elements on a fresh queue and then
polling until empty returns exactly those elements in the order offered,
with no element lost and none returned twice.
-/
theorem queue_offer_poll_fifo {α : Type} (xs : List α) :
    (LinkedBlockingQueue.offerAll (LinkedBlockingQueue.empty α) xs).drain = xs := by
  show (LinkedBlockingQueue.offerAll ⟨[]⟩ xs).drain = xs
  rw [offerAll_mk]
  simpa using drain_mk xs

/--
Claim C4: for every valid message, a SoilDryAlert or SoilWetAlert makes
the receiver enqueue exactly one command carrying that message for the
actuator, an AckSoilWet makes it enqueue exactly one command carrying
that message for the monitor, and the UserStack variants and
RunOutOfWaterAlert make it enqueue nothing.
-/
theorem receiver_dispatch_enqueue (m : Message) (hmagic : m.magic = kMagic) :
    ((m.type = MessageType.kSoilDryAlert ∨ m.type = MessageType.kSoilWetAlert) →
      (Controller.receiverStep (some m)).enqueued =
        [{ message := m, index := SocketIndex.kActuator }]) ∧
    (m.type = MessageType.kAckSoilWet →
      (Controller.receiverStep (some m)).enqueued =
        [{ message := m, index := SocketIndex.kMonitor }]) ∧
    ((m.type = MessageType.kMoistureUserStack ∨ m.type = MessageType.kActuatorUserStack ∨
      m.type = MessageType.kGateWayUserStack ∨ m.type = MessageType.kRunOutOfWaterAlert) →
      (Controller.receiverStep (some m)).enqueued = []) := by
  refine ⟨?_, ?_, ?_⟩
  · rintro (h | h) <;>
      simp [Controller.receiverStep, hmagic, h, Command.relayMessageToActuatorDevice,
        MessageType.kMoistureUserStack, MessageType.kActuatorUserStack,
        MessageType.kGateWayUserStack, MessageType.kSoilDryAlert, MessageType.kSoilWetAlert]
  · intro h
    simp [Controller.receiverStep, hmagic, h, Command.relayMessageToSensorDevice,
      MessageType.kMoistureUserStack, MessageType.kActuatorUserStack,
      MessageType.kGateWayUserStack, MessageType.kSoilDryAlert, MessageType.kSoilWetAlert,
      MessageType.kAckSoilWet]
  · rintro (h | h | h | h) <;>
      simp [Controller.receiverStep, hmagic, h, MessageType.kMoistureUserStack,
        MessageType.kActuatorUserStack, MessageType.kGateWayUserStack,
        MessageType.kSoilDryAlert, MessageType.kSoilWetAlert, MessageType.kAckSoilWet,
        MessageType.kRunOutOfWaterAlert]

/-- Witness for claim C4 at a concrete SoilDryAlert message. -/
theorem receiver_dispatch_enqueue_witness :
    (Controller.receiverStep
        (some { magic := 0x4657, type := MessageType.kSoilDryAlert, data := 0 })).enqueued =
      [{ message := { magic := 0x4657, type := MessageType.kSoilDryAlert, data := 0 },
         index := SocketIndex.kActuator }] :=
  (receiver_dispatch_enqueue
      { magic := 0x4657, type := MessageType.kSoilDryAlert, data := 0 } rfl).1 (Or.inl rfl)

/--
Claim C5: every received record whose magic differs from 0x4657 is
rejected: no command is enqueued, no dispatch case handles it, the
connection is not closed, an error is logged, and the receive loop
continues with the next message.
-/
theorem receiver_magic_mismatch_rejected (m : Message) (h : m.magic ≠ kMagic) :
    Controller.receiverStep (some m) =
      { continues := true, abortsProcess := false, enqueued := [],
        closesConnection := false, logsError := true, dispatched := none } := by
  simp [Controller.receiverStep, h]

/-- Witness for claim C5 at a concrete record with magic 0xDEAD. -/
theorem receiver_magic_mismatch_rejected_witness :
    ({ magic := 0xDEAD, type := MessageType.kSoilDryAlert, data := 0 } : Message).magic
        ≠ kMagic ∧
    Controller.receiverStep
        (some { magic := 0xDEAD, type := MessageType.kSoilDryAlert, data := 0 }) =
      { continues := true, abortsProcess := false, enqueued := [],
        closesConnection := false, logsError := true, dispatched := none } :=
  ⟨by decide, receiver_magic_mismatch_rejected _ (by decide)⟩

/--
Claim C6: a dequeued command addressed to an unbound slot is consumed
with a warning, no socket write, and the loop continues without aborting;
a dequeued command whose socket write fails logs a soft warning and the
loop continues without aborting.
-/
theorem sender_unbound_or_failed_send_soft (sockets : SocketIndex → Option Socket)
    (command : Command) :
    (sockets command.index = none →
      Controller.senderStep sockets command =
        { socketWrites := [], loggedWarning := true, continues := true,
          abortsProcess := false }) ∧
    (∀ socket, sockets command.index = some socket → socket.sendOK = false →
      Controller.senderStep sockets command =
        { socketWrites := [(command.index, command.message)], loggedWarning := true,
          continues := true, abortsProcess := false }) := by
  constructor
  · intro h
    simp [Controller.senderStep, h]
  · intro socket h hfail
    simp [Controller.senderStep, h, hfail]

/-- Witness for claim C6: an unbound actuator slot drops the command with
a warning and no write; a bound slot whose send fails logs and continues. -/
theorem sender_unbound_or_failed_send_soft_witness :
    Controller.senderStep (fun _ => none) Command.sendDrySoilAlertToActuatorDevice =
      { socketWrites := [], loggedWarning := true, continues := true,
        abortsProcess := false } ∧
    Controller.senderStep (fun _ => some { sendOK := false, recvOK := true })
        Command.sendDrySoilAlertToActuatorDevice =
      { socketWrites := [(SocketIndex.kActuator, Message.soilDryAlert)],
        loggedWarning := true, continues := true, abortsProcess := false } :=
  ⟨(sender_unbound_or_failed_send_soft (fun _ => none)
      Command.sendDrySoilAlertToActuatorDevice).1 rfl,
   (sender_unbound_or_failed_send_soft (fun _ => some { sendOK := false, recvOK := true })
      Command.sendDrySoilAlertToActuatorDevice).2
      { sendOK := false, recvOK := true } rfl rfl⟩

/--
Claim C7: for every duration, pollWithTimeout on a queue that stayed
empty until the deadline returns no element and leaves the queue
unchanged.
-/
theorem pollWithTimeout_empty_returns_none {α : Type} (d : Nat)
    (q : LinkedBlockingQueue α) (h : q.queue = []) :
    LinkedBlockingQueue.pollWithTimeout d q = (none, q) := by
  rcases q with ⟨l⟩
  cases h
  rfl

/-- Witness for claim C7 on the empty command queue with duration 5. -/
theorem pollWithTimeout_empty_returns_none_witness :
    (LinkedBlockingQueue.empty Command).queue = [] ∧
    LinkedBlockingQueue.pollWithTimeout 5 (LinkedBlockingQueue.empty Command) =
      (none, LinkedBlockingQueue.empty Command) :=
  ⟨rfl, pollWithTimeout_empty_returns_none 5 (LinkedBlockingQueue.empty Command) rfl⟩

/--
Claim C8: for every non-empty vector of elapsed-time samples, the
reported statistics satisfy min at most medium and medium at most max.
-/
theorem result_stats_ordered (r : Result) (h : r.durations ≠ []) :
    r.min ≤ r.medium ∧ r.medium ≤ r.max :=
  ⟨Result.min_le_of_mem r r.medium (Result.medium_mem r h),
   Result.le_max_of_mem r r.medium (Result.medium_mem r h)⟩

/-- Witness for claim C8 on the concrete sample vector [3, 1, 2]. -/
theorem result_stats_ordered_witness :
    (Result.durations ⟨[3, 1, 2]⟩ ≠ []) ∧
    (Result.min ⟨[3, 1, 2]⟩ ≤ Result.medium ⟨[3, 1, 2]⟩ ∧
     Result.medium ⟨[3, 1, 2]⟩ ≤ Result.max ⟨[3, 1, 2]⟩) :=
  ⟨by decide, result_stats_ordered ⟨[3, 1, 2]⟩ (by decide)⟩

/--
Claim C9: a failed gateway send or receive during the CoAP round trip
aborts the whole process through passert, whereas a sender-thread send
failure only logs and continues, and a receiver-thread read failure only
terminates that thread without aborting the process.
-/
theorem coap_roundtrip_failure_aborts (s : Socket)
    (h : s.sendOK = false ∨ s.recvOK = false) :
    Controller.sendRecvCoAPMessage (some s) = CoAPOutcome.abortProcess ∧
    (∀ (sockets : SocketIndex → Option Socket) (command : Command),
      (Controller.senderStep sockets command).abortsProcess = false ∧
      (Controller.senderStep sockets command).continues = true) ∧
    (Controller.receiverStep none).continues = false ∧
    (Controller.receiverStep none).abortsProcess = false := by
  refine ⟨?_, ?_, by decide, by decide⟩
  · rcases h with h | h
    · simp [Controller.sendRecvCoAPMessage, h]
    · cases hs : s.sendOK <;> simp [Controller.sendRecvCoAPMessage, h, hs]
  · intro sockets command
    cases hs : sockets command.index <;> simp [Controller.senderStep, hs]

/-- Witness for claim C9 at a gateway socket whose send fails. -/
theorem coap_roundtrip_failure_aborts_witness :
    (({ sendOK := false, recvOK := true } : Socket).sendOK = false ∨
     ({ sendOK := false, recvOK := true } : Socket).recvOK = false) ∧
    Controller.sendRecvCoAPMessage (some { sendOK := false, recvOK := true }) =
      CoAPOutcome.abortProcess :=
  ⟨Or.inl rfl,
   (coap_roundtrip_failure_aborts { sendOK := false, recvOK := true } (Or.inl rfl)).1⟩

/--
Claim C10: the coap shell command invokes the gateway round trip without
consulting the socket slots, so it can run with no gateway connection, in
which case the round trip dereferences the empty gateway optional; under
the precondition that the gateway slot holds a socket, the
empty-optional branch is unreachable.
-/
theorem coap_command_unchecked_gateway :
    Controller.runShellCommand ["coap"] = ShellAction.invokeCoAPOnce ∧
    Controller.sendRecvCoAPMessage none = CoAPOutcome.derefEmptyOptional ∧
    (∀ s : Socket,
      Controller.sendRecvCoAPMessage (some s) ≠ CoAPOutcome.derefEmptyOptional) := by
  refine ⟨by decide, rfl, ?_⟩
  intro s
  rcases s with ⟨sOK, rOK⟩
  cases sOK <;> cases rOK <;> decide

end EmulationController
